import Mathlib

/-!
# Verification of the yalock lock-session protocol

Shallow embedding of the Go packages `mysql` and `postgres` of the
yalock repository.  Each lock operation performs at most one database
round-trip (`QueryRowContext` followed by `Scan`), so an operation is
embedded as a pure function from the lock value, the caller's context,
the call arguments and the database's response to the operation's result
paired with the list of queries it issued.  The database handle `*sql.DB`
is modelled by an explicit `Db` argument describing the (scanned)
response of each possible query; Go's `error` values are modelled by
`GoErr`; `context.Context` by `Ctx` (whether `ctx.Done()` is closed, and
which of the two context errors `ctx.Err()` reports).
-/

namespace Yalock

/-- The sentinel and generic Go error values that appear as causes in this
code base: the five package-level sentinels of `errors.go`
(`ErrorLockTimeout`, `ErrorLockAcquisitionFailed`, `ErrorLockDoesNotExist`,
`ErrorLockNotOwned`, `ErrorLockUnknown`), the two context errors, and a
generic error (an `errors.New` value or a raw driver/transport error)
carrying its message. -/
inductive BaseErr where
  | lockTimeout
  | lockAcquisitionFailed
  | lockDoesNotExist
  | lockNotOwned
  | lockUnknown
  | ctxCanceled
  | ctxDeadlineExceeded
  | goError (msg : String)
deriving DecidableEq, Repr

/-- The two values `ctx.Err()` can report once a context is done. -/
inductive CtxErr where
  | canceled
  | deadlineExceeded
deriving DecidableEq, Repr

/-- A caller context: whether `ctx.Done()` is already closed at the time the
operation inspects it, and the error `ctx.Err()` reports in that case. -/
structure Ctx where
  done : Bool
  reason : CtxErr
deriving DecidableEq, Repr

/-- Value of `ctx.Err()` as a `BaseErr` (only read on the `ctx.Done()` branch). -/
def Ctx.errBase (c : Ctx) : BaseErr :=
  match c.reason with
  | .canceled => .ctxCanceled
  | .deadlineExceeded => .ctxDeadlineExceeded

namespace postgres

/-- Structure `postgres.LockError` from `src/postgres/errors.go`: the structured
domain error with cause, human message, method, session name and driver. -/
structure LockError where
  err : BaseErr
  message : String
  method : String
  sessionName : String
  driver : String
deriving DecidableEq, Repr

/-- Method `(*postgres.LockError).Unwrap` from `src/postgres/errors.go`: returns
the wrapped cause `e.Err`. -/
def LockError.Unwrap (e : LockError) : BaseErr := e.err

end postgres

namespace mysql

/-- Structure `mysql.LockError`: the structured domain error of the `mysql` package,
with the same five fields as the postgres one. -/
structure LockError where
  err : BaseErr
  message : String
  method : String
  sessionName : String
  driver : String
deriving DecidableEq, Repr

/-- Modelled from the spec: the `mysql` package's error-definitions file is
only partially under `src/` (`src/unnamed/part_001` declares the struct and
`Error()`, while the package-level sentinel values `ErrorLockTimeout`
etc. referenced by `src/mysql/lock.go`, `src/unnamed/part_000` and the
tests are declared elsewhere, and the tests match causes with
`assert.ErrorIs`).  Per the spec, every domain error carries "the
underlying cause for unwrapping/inspection", so unwrapping a `mysql`
`LockError` yields its cause `Err`. -/
def LockError.Unwrap (e : LockError) : BaseErr := e.err

end mysql

/-- A Go `error` value as produced by the lock operations: either a base
error (sentinel, context error or generic error) or one of the two
structured `LockError` values. -/
inductive GoErr where
  | base (b : BaseErr)
  | pgLock (e : postgres.LockError)
  | myLock (e : mysql.LockError)
deriving DecidableEq, Repr

/-- Predicate `errors.Is e target` for a sentinel/base target: a base error matches by
equality, a `LockError` matches through its `Unwrap` chain. -/
def GoErr.is (e : GoErr) (target : BaseErr) : Bool :=
  match e with
  | .base b => b == target
  | .pgLock l => l.Unwrap == target
  | .myLock l => l.Unwrap == target

/-- The cause of an operation result: the base error itself, or the wrapped
cause of a structured `LockError`. -/
def causeOf : Option GoErr → Option BaseErr
  | some (.base b) => some b
  | some (.pgLock e) => some e.err
  | some (.myLock e) => some e.err
  | none => none

/-- Whether an operation result is a structured `LockError` (as opposed to a
raw propagated error or success). -/
def isStructured : Option GoErr → Bool
  | some (.pgLock _) => true
  | some (.myLock _) => true
  | _ => false

/-- The outcome of the single `QueryRowContext` + `Scan` round-trip of one
operation, as the Go code observes it: `row.Err()` non-nil, `Scan`
returning an error, or a successfully scanned nullable value (`none` is SQL
NULL). -/
inductive RowOutcome (α : Type) where
  | rowErr (msg : String)
  | scanErr (msg : String)
  | ok (v : Option α)
deriving DecidableEq, Repr

/-- The queries the two adapters can issue, identified by their SQL text and
arguments. -/
inductive Query where
  | pgAdvisoryLock (k : Int)
  | pgTryAdvisoryLock (k : Int)
  | getLock (k : String) (secs : Int)
  | releaseLock (k : String)
  | isUsedLock (k : String)
  | isFreeLock (k : String)
  | releaseAllLocks
deriving DecidableEq, Repr

/-- The database, modelled as the scanned response it gives to each query a
lock operation can issue.  One field per (query, scan type) pair used in the
code: `SELECT pg_advisory_lock(?)` and `SELECT pg_try_advisory_lock(?)`
scanned as `sql.NullBool`; `SELECT GET_LOCK(?, ?)`, `SELECT
RELEASE_LOCK(?)` and (in `MySQLLock` and `PostgreSQLLock`) `SELECT
IS_FREE_LOCK(?)` scanned as `sql.NullInt16`; `SELECT IS_USED_LOCK(?)` and
(in `MySQLLocker` only) `SELECT IS_FREE_LOCK(?)` scanned as
`sql.NullString`; `SELECT RELEASE_ALL_LOCKS()` scanned as `sql.NullInt32`. -/
structure Db where
  advisoryLock : Int → RowOutcome Bool
  tryAdvisoryLock : Int → RowOutcome Bool
  getLock : String → Int → RowOutcome Int
  releaseLock : String → RowOutcome Int
  isUsedLock : String → RowOutcome String
  isFreeLockI : String → RowOutcome Int
  isFreeLockS : String → RowOutcome String
  releaseAll : RowOutcome Int

/-- A Go `interface` (empty-interface) value passed as the `key` argument of
`PostgreSQLLock.AcquireLock`; the Go type assertion `key.(int64)` succeeds
exactly on the `int64` constructor. -/
inductive GoValue where
  | int64 (i : Int)
  | str (s : String)
deriving DecidableEq, Repr

/-- Conversion `int(timeout.Seconds())` on a Go `time.Duration` (a count of
nanoseconds): conversion to whole seconds.  Go's `int(...)` truncates the
fractional seconds toward zero, which is exactly `Int.tdiv`.  (The
intermediate `float64` of `Duration.Seconds` is abstracted; it is exact for
every duration whose nanosecond count fits the float's 53-bit mantissa.) -/
def goSeconds (d : Int) : Int := Int.tdiv d 1000000000

namespace postgres

/-- Structure `postgres.PostgreSQLLock` from `src/postgres/lock.go`.  The bound
`*sql.DB` handle is modelled as the explicit `Db` argument of each
operation. -/
structure PostgreSQLLock where
  name : String
deriving DecidableEq, Repr

/-- Method `(*PostgreSQLLock).Name` from `src/postgres/lock.go`. -/
def PostgreSQLLock.Name (l : PostgreSQLLock) : String := l.name

/-- Method `(*PostgreSQLLock).AcquireLock` from `src/postgres/lock.go` lines
24-93.  The key is type-asserted to `int64` (failure returns a `LockError`
before any query).  A negative timeout selects `SELECT pg_advisory_lock(?)`,
otherwise `SELECT pg_try_advisory_lock(?)`; the chosen query is issued once.
If `row.Err()` or `Scan` fails while the context is done, the context error
is wrapped in a `LockError`; otherwise the raw error is returned.  The
scanned `sql.NullBool` is then switched on: NULL falls through (nil),
`false` returns a `LockError` wrapping `ErrorLockAcquisitionFailed`, `true`
returns nil. -/
def PostgreSQLLock.AcquireLock (l : PostgreSQLLock) (ctx : Ctx) (key : GoValue)
    (timeout : Int) (db : Db) : Option GoErr × List Query :=
  match key with
  | .str _ =>
      (some (.pgLock ⟨.goError "key must be a 64-bit integer",
        "key must be a 64-bit integer", "AcquireLock", l.name, "postgres"⟩), [])
  | .int64 keyI =>
      let q : Query := if timeout < 0 then .pgAdvisoryLock keyI else .pgTryAdvisoryLock keyI
      let resp : RowOutcome Bool :=
        if timeout < 0 then db.advisoryLock keyI else db.tryAdvisoryLock keyI
      match resp with
      | .rowErr m =>
          (if ctx.done then
            some (.pgLock ⟨ctx.errBase, "context deadline exceeded while querying row",
              "AcquireLock", l.name, "postgres"⟩)
          else some (.base (.goError m)), [q])
      | .scanErr m =>
          (if ctx.done then
            some (.pgLock ⟨ctx.errBase, "context deadline exceeded while scanning row",
              "AcquireLock", l.name, "postgres"⟩)
          else some (.base (.goError m)), [q])
      | .ok v =>
          (match v with
          | none => none
          | some false =>
              some (.pgLock ⟨.lockAcquisitionFailed, "failed to acquire lock",
                "AcquireLock", l.name, "postgres"⟩)
          | some true => none, [q])

/-- Method `(*PostgreSQLLock).ReleaseLock` from `src/postgres/lock.go` lines
95-128: issues `SELECT RELEASE_LOCK(?)` (the MySQL named-lock release,
kept verbatim in the postgres file), propagates `row.Err()`/`Scan` errors
raw, and switches on the scanned `sql.NullInt16`: NULL returns a
`LockError` wrapping `ErrorLockDoesNotExist`, 0 one wrapping
`ErrorLockNotOwned`, 1 (and any other value) returns nil. -/
def PostgreSQLLock.ReleaseLock (l : PostgreSQLLock) (_ctx : Ctx) (key : String)
    (db : Db) : Option GoErr × List Query :=
  match db.releaseLock key with
  | .rowErr m => (some (.base (.goError m)), [.releaseLock key])
  | .scanErr m => (some (.base (.goError m)), [.releaseLock key])
  | .ok v =>
      (match v with
      | none =>
          some (.pgLock ⟨.lockDoesNotExist, "lock does not exist",
            "ReleaseLock", l.name, "postgres"⟩)
      | some 0 =>
          some (.pgLock ⟨.lockNotOwned, "lock not owned",
            "ReleaseLock", l.name, "postgres"⟩)
      | some _ => none, [.releaseLock key])

/-- Method `(*PostgreSQLLock).IsLockAcquired` from `src/postgres/lock.go` lines
130-146: issues `SELECT IS_USED_LOCK(?)` (MySQL probe kept verbatim),
propagates transport errors raw, and maps the scanned `sql.NullString`:
NULL to `(false, nil)`, anything non-NULL to `(true, nil)`. -/
def PostgreSQLLock.IsLockAcquired (_l : PostgreSQLLock) (_ctx : Ctx) (key : String)
    (db : Db) : (Bool × Option GoErr) × List Query :=
  match db.isUsedLock key with
  | .rowErr m => ((false, some (.base (.goError m))), [.isUsedLock key])
  | .scanErr m => ((false, some (.base (.goError m))), [.isUsedLock key])
  | .ok v =>
      (match v with
      | none => (false, none)
      | some _ => (true, none), [.isUsedLock key])

/-- Method `(*PostgreSQLLock).IsLockFree` from `src/postgres/lock.go` lines
148-177: issues `SELECT IS_FREE_LOCK(?)` (MySQL probe kept verbatim),
propagates transport errors raw, and maps the scanned `sql.NullInt16`:
NULL to a `LockError` wrapping `ErrorLockUnknown`, 0 to `(false, nil)`,
1 to `(true, nil)`, any other value to `(false, nil)`. -/
def PostgreSQLLock.IsLockFree (l : PostgreSQLLock) (_ctx : Ctx) (key : String)
    (db : Db) : (Bool × Option GoErr) × List Query :=
  match db.isFreeLockI key with
  | .rowErr m => ((false, some (.base (.goError m))), [.isFreeLock key])
  | .scanErr m => ((false, some (.base (.goError m))), [.isFreeLock key])
  | .ok v =>
      (match v with
      | none =>
          (false, some (.pgLock ⟨.lockUnknown,
            "unknown error (possibly an incorrect argument)",
            "IsLockFree", l.name, "postgres"⟩))
      | some 0 => (false, none)
      | some 1 => (true, none)
      | some _ => (false, none), [.isFreeLock key])

/-- Method `(*PostgreSQLLock).ReleaseAllLocks` from `src/postgres/lock.go` lines
179-190: issues `SELECT RELEASE_ALL_LOCKS()` (MySQL primitive kept
verbatim), propagates transport errors raw with count 0, and otherwise
returns `int(result.Int32)` — the scanned count, with NULL scanning to the
zero value. -/
def PostgreSQLLock.ReleaseAllLocks (_l : PostgreSQLLock) (_ctx : Ctx)
    (db : Db) : (Int × Option GoErr) × List Query :=
  match db.releaseAll with
  | .rowErr m => ((0, some (.base (.goError m))), [.releaseAllLocks])
  | .scanErr m => ((0, some (.base (.goError m))), [.releaseAllLocks])
  | .ok v =>
      (match v with
      | none => (0, none)
      | some n => (n, none), [.releaseAllLocks])

end postgres

namespace mysql

/-- Structure `mysql.MySQLLock` (the session-lock adapter with context
reclassification); the bound `*sql.DB` is the explicit `Db` argument. -/
structure MySQLLock where
  name : String
deriving DecidableEq, Repr

/-- Method `(*MySQLLock).Name`. -/
def MySQLLock.Name (l : MySQLLock) : String := l.name

/-- Method `(*MySQLLock).AcquireLock` (session-lock adapter, lines 23-81): issues
`SELECT GET_LOCK(?, ?)` once with the wait budget converted by
`int(timeout.Seconds())`.  If `row.Err()` or `Scan` fails while the context
is done, the context error is wrapped in a `LockError`; otherwise the raw
error is returned.  The scanned `sql.NullInt16` is mapped: NULL to a
`LockError` wrapping `ErrorLockAcquisitionFailed`, 0 to one wrapping
`ErrorLockTimeout`, 1 (and any other value) to nil. -/
def MySQLLock.AcquireLock (l : MySQLLock) (ctx : Ctx) (key : String)
    (timeout : Int) (db : Db) : Option GoErr × List Query :=
  let secs := goSeconds timeout
  match db.getLock key secs with
  | .rowErr m =>
      (if ctx.done then
        some (.myLock ⟨ctx.errBase, "context deadline exceeded while querying row",
          "AcquireLock", l.name, "mysql"⟩)
      else some (.base (.goError m)), [.getLock key secs])
  | .scanErr m =>
      (if ctx.done then
        some (.myLock ⟨ctx.errBase, "context deadline exceeded while scanning row",
          "AcquireLock", l.name, "mysql"⟩)
      else some (.base (.goError m)), [.getLock key secs])
  | .ok v =>
      (match v with
      | none =>
          some (.myLock ⟨.lockAcquisitionFailed, "failed to acquire lock",
            "AcquireLock", l.name, "mysql"⟩)
      | some 0 =>
          some (.myLock ⟨.lockTimeout, "timeout",
            "AcquireLock", l.name, "mysql"⟩)
      | some _ => none, [.getLock key secs])

/-- Method `(*MySQLLock).ReleaseLock`: issues `SELECT RELEASE_LOCK(?)`, propagates
transport errors raw, and maps the scanned `sql.NullInt16`: NULL to a
`LockError` wrapping `ErrorLockDoesNotExist`, 0 to one wrapping
`ErrorLockNotOwned`, 1 (and any other value) to nil. -/
def MySQLLock.ReleaseLock (l : MySQLLock) (_ctx : Ctx) (key : String)
    (db : Db) : Option GoErr × List Query :=
  match db.releaseLock key with
  | .rowErr m => (some (.base (.goError m)), [.releaseLock key])
  | .scanErr m => (some (.base (.goError m)), [.releaseLock key])
  | .ok v =>
      (match v with
      | none =>
          some (.myLock ⟨.lockDoesNotExist, "lock does not exist",
            "ReleaseLock", l.name, "mysql"⟩)
      | some 0 =>
          some (.myLock ⟨.lockNotOwned, "lock not owned",
            "ReleaseLock", l.name, "mysql"⟩)
      | some _ => none, [.releaseLock key])

/-- Method `(*MySQLLock).IsLockAcquired`: issues `SELECT IS_USED_LOCK(?)`,
propagates transport errors raw, and maps the scanned `sql.NullString`:
NULL to `(false, nil)`, anything non-NULL to `(true, nil)`. -/
def MySQLLock.IsLockAcquired (_l : MySQLLock) (_ctx : Ctx) (key : String)
    (db : Db) : (Bool × Option GoErr) × List Query :=
  match db.isUsedLock key with
  | .rowErr m => ((false, some (.base (.goError m))), [.isUsedLock key])
  | .scanErr m => ((false, some (.base (.goError m))), [.isUsedLock key])
  | .ok v =>
      (match v with
      | none => (false, none)
      | some _ => (true, none), [.isUsedLock key])

/-- Method `(*MySQLLock).IsLockFree`: issues `SELECT IS_FREE_LOCK(?)`, propagates
transport errors raw, and maps the scanned `sql.NullInt16`: NULL to a
`LockError` wrapping `ErrorLockUnknown`, 0 to `(false, nil)`, 1 to
`(true, nil)`, any other value to `(false, nil)`. -/
def MySQLLock.IsLockFree (l : MySQLLock) (_ctx : Ctx) (key : String)
    (db : Db) : (Bool × Option GoErr) × List Query :=
  match db.isFreeLockI key with
  | .rowErr m => ((false, some (.base (.goError m))), [.isFreeLock key])
  | .scanErr m => ((false, some (.base (.goError m))), [.isFreeLock key])
  | .ok v =>
      (match v with
      | none =>
          (false, some (.myLock ⟨.lockUnknown,
            "unknown error (possibly an incorrect argument)",
            "IsLockFree", l.name, "mysql"⟩))
      | some 0 => (false, none)
      | some 1 => (true, none)
      | some _ => (false, none), [.isFreeLock key])

/-- Method `(*MySQLLock).ReleaseAllLocks`: issues `SELECT RELEASE_ALL_LOCKS()`,
propagates transport errors raw with count 0, otherwise returns
`int(result.Int32)` — the scanned count, with NULL scanning to zero. -/
def MySQLLock.ReleaseAllLocks (_l : MySQLLock) (_ctx : Ctx)
    (db : Db) : (Int × Option GoErr) × List Query :=
  match db.releaseAll with
  | .rowErr m => ((0, some (.base (.goError m))), [.releaseAllLocks])
  | .scanErr m => ((0, some (.base (.goError m))), [.releaseAllLocks])
  | .ok v =>
      (match v with
      | none => (0, none)
      | some n => (n, none), [.releaseAllLocks])

/-- Structure `mysql.MySQLLocker` from `src/mysql/lock.go` (the earlier session-lock
adapter without context reclassification). -/
structure MySQLLocker where
  name : String
deriving DecidableEq, Repr

/-- Method `(*MySQLLocker).AcquireLock` from `src/mysql/lock.go` lines 20-56:
issues `SELECT GET_LOCK(?, ?)` once with `int(timeout.Seconds())`,
propagates `row.Err()` and `Scan` errors raw (no inspection of the
context), and maps the scanned `sql.NullInt16` exactly as
`MySQLLock.AcquireLock` does. -/
def MySQLLocker.AcquireLock (l : MySQLLocker) (_ctx : Ctx) (key : String)
    (timeout : Int) (db : Db) : Option GoErr × List Query :=
  let secs := goSeconds timeout
  match db.getLock key secs with
  | .rowErr m => (some (.base (.goError m)), [.getLock key secs])
  | .scanErr m => (some (.base (.goError m)), [.getLock key secs])
  | .ok v =>
      (match v with
      | none =>
          some (.myLock ⟨.lockAcquisitionFailed, "failed to acquire lock",
            "AcquireLock", l.name, "mysql"⟩)
      | some 0 =>
          some (.myLock ⟨.lockTimeout, "timeout",
            "AcquireLock", l.name, "mysql"⟩)
      | some _ => none, [.getLock key secs])

/-- Method `(*MySQLLocker).ReleaseLock` from `src/mysql/lock.go` lines
58-91: issues `SELECT RELEASE_LOCK(?)`, propagates transport errors raw,
and maps the scanned `sql.NullInt16`: NULL to a `LockError` wrapping
`ErrorLockDoesNotExist`, 0 to one wrapping `ErrorLockNotOwned`, 1 (logged)
and any other value to nil. -/
def MySQLLocker.ReleaseLock (l : MySQLLocker) (_ctx : Ctx) (key : String)
    (db : Db) : Option GoErr × List Query :=
  match db.releaseLock key with
  | .rowErr m => (some (.base (.goError m)), [.releaseLock key])
  | .scanErr m => (some (.base (.goError m)), [.releaseLock key])
  | .ok v =>
      (match v with
      | none =>
          some (.myLock ⟨.lockDoesNotExist, "lock does not exist",
            "ReleaseLock", l.name, "mysql"⟩)
      | some 0 =>
          some (.myLock ⟨.lockNotOwned, "lock not owned",
            "ReleaseLock", l.name, "mysql"⟩)
      | some _ => none, [.releaseLock key])

/-- Method `(*MySQLLocker).IsLockAcquired` from `src/mysql/lock.go` lines
93-109: issues `SELECT IS_USED_LOCK(?)`, propagates transport errors raw,
and maps the scanned `sql.NullString`: NULL to `(false, nil)`, anything
non-NULL to `(true, nil)`. -/
def MySQLLocker.IsLockAcquired (_l : MySQLLocker) (_ctx : Ctx) (key : String)
    (db : Db) : (Bool × Option GoErr) × List Query :=
  match db.isUsedLock key with
  | .rowErr m => ((false, some (.base (.goError m))), [.isUsedLock key])
  | .scanErr m => ((false, some (.base (.goError m))), [.isUsedLock key])
  | .ok v =>
      (match v with
      | none => (false, none)
      | some _ => (true, none), [.isUsedLock key])

/-- Method `(*MySQLLocker).IsLockFree` from `src/mysql/lock.go` lines 111-128:
issues `SELECT IS_FREE_LOCK(?)` but scans a `sql.NullString` and maps it
like the is-used probe: NULL to `(false, nil)`, anything non-NULL —
including the server's `0` ("in use") — to `(true, nil)`.  No `Unknown`
error is ever produced. -/
def MySQLLocker.IsLockFree (_l : MySQLLocker) (_ctx : Ctx) (key : String)
    (db : Db) : (Bool × Option GoErr) × List Query :=
  match db.isFreeLockS key with
  | .rowErr m => ((false, some (.base (.goError m))), [.isFreeLock key])
  | .scanErr m => ((false, some (.base (.goError m))), [.isFreeLock key])
  | .ok v =>
      (match v with
      | none => (false, none)
      | some _ => (true, none), [.isFreeLock key])

end mysql

/-! ## Concrete fixtures used by the witnesses and counterexamples -/

/-- A context that is still live (its `Done` channel is not closed). -/
def ctxLive : Ctx := ⟨false, CtxErr.canceled⟩

/-- A context that is already cancelled (`Done` closed, `Err` reporting
`context.Canceled`). -/
def ctxDoneCanceled : Ctx := ⟨true, CtxErr.canceled⟩

/-- A database whose every scanned response is SQL NULL. -/
def dbNull : Db :=
  { advisoryLock := fun _ => .ok none
    tryAdvisoryLock := fun _ => .ok none
    getLock := fun _ _ => .ok none
    releaseLock := fun _ => .ok none
    isUsedLock := fun _ => .ok none
    isFreeLockI := fun _ => .ok none
    isFreeLockS := fun _ => .ok none
    releaseAll := .ok none }

/-- A database on which the non-blocking try-acquire always reports the
lock as held by someone else (`pg_try_advisory_lock` returns `false`). -/
def dbTryBusy : Db := { dbNull with tryAdvisoryLock := fun _ => .ok (some false) }

/-- A database on which `GET_LOCK` returns the out-of-contract value 7. -/
def dbGet7 : Db := { dbNull with getLock := fun _ _ => .ok (some 7) }

/-- A database on which `GET_LOCK` returns 0 (wait timed out). -/
def dbGet0 : Db := { dbNull with getLock := fun _ _ => .ok (some 0) }

/-- A database on which every acquire query fails at the transport level
with message "conn reset". -/
def dbRowErr : Db :=
  { dbNull with
    getLock := fun _ _ => .rowErr "conn reset"
    advisoryLock := fun _ => .rowErr "conn reset"
    tryAdvisoryLock := fun _ => .rowErr "conn reset" }

/-- A database on which the is-used probe reports a holder and the is-free
probe reports the lock free. -/
def dbProbe : Db :=
  { dbNull with
    isUsedLock := fun _ => .ok (some "1")
    isFreeLockI := fun _ => .ok (some 1) }

/-- A database on which `RELEASE_ALL_LOCKS()` reports 3 locks released. -/
def dbRel3 : Db := { dbNull with releaseAll := .ok (some 3) }

/-- A database on which the is-free probe answers 0 (lock in use), as
scanned by both the `NullInt16` and the `NullString` decoders. -/
def dbFree0 : Db :=
  { dbNull with
    isFreeLockI := fun _ => .ok (some 0)
    isFreeLockS := fun _ => .ok (some "0") }

/-! ## Theorems for the claims -/

/-- C1, counterexample.  The claim says a positive wait budget makes
`PostgreSQLLock.AcquireLock` repeatedly probe and return a `Timeout`
error when the budget elapses.  On a database where the lock is held
(the try-acquire probe answers `false`), a call with a one-second budget
issues exactly one probe and returns a `LockError` wrapping
`ErrorLockAcquisitionFailed` — not a timeout error and with no retry. -/
theorem C1_counterexample :
    (postgres.PostgreSQLLock.AcquireLock ⟨"s1"⟩ ctxLive (.int64 7) 1000000000 dbTryBusy).2 =
      [Query.pgTryAdvisoryLock 7] ∧
    (postgres.PostgreSQLLock.AcquireLock ⟨"s1"⟩ ctxLive (.int64 7) 1000000000 dbTryBusy).1 =
      some (.pgLock ⟨.lockAcquisitionFailed, "failed to acquire lock",
        "AcquireLock", "s1", "postgres"⟩) ∧
    ((postgres.PostgreSQLLock.AcquireLock ⟨"s1"⟩ ctxLive (.int64 7) 1000000000 dbTryBusy).1.all
      (fun e => !(e.is .lockTimeout))) = true := by
  decide

/-- C2, counterexample.  The claim says a server response not mapped by the
contract is reported as `Unknown` and that NULL is never silently success.
But `MySQLLock.AcquireLock` returns nil (success) when `GET_LOCK` scans to
the out-of-contract value 7, and `PostgreSQLLock.AcquireLock` returns nil
when the try-acquire probe scans to NULL. -/
theorem C2_counterexample :
    (mysql.MySQLLock.AcquireLock ⟨"s1"⟩ ctxLive "k" 0 dbGet7).1 = none ∧
    (postgres.PostgreSQLLock.AcquireLock ⟨"s1"⟩ ctxLive (.int64 7) 0 dbNull).1 = none := by
  decide

/-- C3, counterexample.  The claim quantifies over every `AcquireLock` on
either backend, but `MySQLLocker.AcquireLock` (in `src/mysql/lock.go`)
returns the raw transport error even when the caller's context is already
cancelled, not a structured error wrapping the context's error. -/
theorem C3_counterexample :
    (mysql.MySQLLocker.AcquireLock ⟨"s1"⟩ ctxDoneCanceled "k" 0 dbRowErr).1 =
      some (.base (.goError "conn reset")) ∧
    isStructured (mysql.MySQLLocker.AcquireLock ⟨"s1"⟩ ctxDoneCanceled "k" 0 dbRowErr).1 =
      false := by
  decide

/-- C4.  The claim says `PostgreSQLLock.ReleaseLock` treats a NULL unlock
result as success and never returns `DoesNotExist`.  The code instead
issues MySQL's `SELECT RELEASE_LOCK(?)` and returns a `LockError` wrapping
`ErrorLockDoesNotExist` on a NULL result — evaluated here at a
never-acquired key whose release scans to NULL. -/
theorem C4_code_eval :
    postgres.PostgreSQLLock.ReleaseLock ⟨"s1"⟩ ctxLive "k" dbNull =
      (some (.pgLock ⟨.lockDoesNotExist, "lock does not exist",
        "ReleaseLock", "s1", "postgres"⟩),
       [Query.releaseLock "k"]) := by
  decide

/-- C5.  The claim says `PostgreSQLLock.IsLockAcquired` and
`PostgreSQLLock.IsLockFree` always return a `NotImplemented` error without
querying the backend.  The code instead issues MySQL's `IS_USED_LOCK` /
`IS_FREE_LOCK` probes and decodes their answers with no error at all. -/
theorem C5_code_eval :
    postgres.PostgreSQLLock.IsLockAcquired ⟨"s1"⟩ ctxLive "k" dbProbe =
      ((true, none), [Query.isUsedLock "k"]) ∧
    postgres.PostgreSQLLock.IsLockFree ⟨"s1"⟩ ctxLive "k" dbProbe =
      ((true, none), [Query.isFreeLock "k"]) := by
  decide

/-- C6.  The claim says `PostgreSQLLock.ReleaseAllLocks` always reports a
count of zero.  The code issues MySQL's `SELECT RELEASE_ALL_LOCKS()` and
returns whatever count the server reports — here 3. -/
theorem C6_code_eval :
    postgres.PostgreSQLLock.ReleaseAllLocks ⟨"s1"⟩ ctxLive dbRel3 =
      ((3, none), [Query.releaseAllLocks]) := by
  decide

/-- C7, counterexample.  The claim says every session-lock adapter maps the
is-free probe as NULL to an `Unknown` error, 0 to `(false, nil)` and 1 to
`(true, nil)`.  `MySQLLocker.IsLockFree` instead returns `(true, nil)` on
the server's 0 ("in use") and `(false, nil)` — with no error — on NULL. -/
theorem C7_counterexample :
    (mysql.MySQLLocker.IsLockFree ⟨"s1"⟩ ctxLive "k" dbFree0).1 = (true, none) ∧
    (mysql.MySQLLocker.IsLockFree ⟨"s1"⟩ ctxLive "k" dbNull).1 = (false, none) := by
  decide

/-- C10.  For any key value that is not an `int64` (in this model, any
string key), `PostgreSQLLock.AcquireLock` returns — for every context,
wait budget and database — a `LockError` with method "AcquireLock" and
driver "postgres" wrapping the `errors.New` value
"key must be a 64-bit integer", and issues no backend query (the empty
query log); the embedded function is total, so no panic occurs. -/
theorem C10_invalid_key (l : postgres.PostgreSQLLock) (ctx : Ctx) (s : String)
    (t : Int) (db : Db) :
    l.AcquireLock ctx (.str s) t db =
      (some (.pgLock ⟨.goError "key must be a 64-bit integer",
        "key must be a 64-bit integer", "AcquireLock", l.name, "postgres"⟩),
       []) := rfl

/-- C1, amended.  For `PostgreSQLLock`, `AcquireLock` with a wait budget of
zero or any positive duration issues exactly one non-blocking try-acquire
probe (`pg_try_advisory_lock`) with no retries and no waiting; when the
probe reports the lock unavailable the call returns a `LockError` wrapping
`ErrorLockAcquisitionFailed`, and no outcome of the call is ever a
timeout error. -/
theorem C1_amended (l : postgres.PostgreSQLLock) (ctx : Ctx) (i t : Int) (db : Db)
    (h : 0 ≤ t) :
    (l.AcquireLock ctx (.int64 i) t db).2 = [Query.pgTryAdvisoryLock i] ∧
    (db.tryAdvisoryLock i = .ok (some false) →
      (l.AcquireLock ctx (.int64 i) t db).1 =
        some (.pgLock ⟨.lockAcquisitionFailed, "failed to acquire lock",
          "AcquireLock", l.name, "postgres"⟩)) ∧
    ((l.AcquireLock ctx (.int64 i) t db).1.all (fun e => !(e.is .lockTimeout))) = true := by
  have ht : ¬ t < 0 := by omega
  obtain ⟨d, r⟩ := ctx
  unfold postgres.PostgreSQLLock.AcquireLock
  simp only [ht, if_false]
  rcases hdb : db.tryAdvisoryLock i with m | m | v
  · refine ⟨rfl, fun hcontra => by simp [hdb] at hcontra, ?_⟩
    cases d <;> cases r <;>
      simp [GoErr.is, postgres.LockError.Unwrap, Ctx.errBase]
  · refine ⟨rfl, fun hcontra => by simp [hdb] at hcontra, ?_⟩
    cases d <;> cases r <;>
      simp [GoErr.is, postgres.LockError.Unwrap, Ctx.errBase]
  · rcases v with _ | b
    · exact ⟨rfl, fun hcontra => by simp [hdb] at hcontra, by simp⟩
    · cases b
      · exact ⟨rfl, fun _ => rfl, by simp [GoErr.is, postgres.LockError.Unwrap]⟩
      · exact ⟨rfl, fun hcontra => by simp [hdb] at hcontra, by simp⟩

/-- C1, witness for the amended theorem: the concrete busy-database call
with a zero budget. -/
theorem C1_amended_witness :
    0 ≤ (0 : Int) ∧
    ((postgres.PostgreSQLLock.AcquireLock ⟨"s1"⟩ ctxLive (.int64 7) 0 dbTryBusy).2 =
      [Query.pgTryAdvisoryLock 7] ∧
    (dbTryBusy.tryAdvisoryLock 7 = .ok (some false) →
      (postgres.PostgreSQLLock.AcquireLock ⟨"s1"⟩ ctxLive (.int64 7) 0 dbTryBusy).1 =
        some (.pgLock ⟨.lockAcquisitionFailed, "failed to acquire lock",
          "AcquireLock", "s1", "postgres"⟩)) ∧
    ((postgres.PostgreSQLLock.AcquireLock ⟨"s1"⟩ ctxLive (.int64 7) 0 dbTryBusy).1.all
      (fun e => !(e.is .lockTimeout))) = true) :=
  ⟨by decide, C1_amended ⟨"s1"⟩ ctxLive 7 0 dbTryBusy (by decide)⟩

/-- C2, amended.  Among all lock operations of both backends (the
`MySQLLocker` adapter included), only the `NullInt16` is-free decoders
(`MySQLLock.IsLockFree` and `PostgreSQLLock.IsLockFree`) report `Unknown`,
and they do so exactly on a NULL result: the theorem proves the
NULL-to-`Unknown` mapping as an equivalence for those two decoders, and
that no other embedded operation ever produces a result whose cause is
`ErrorLockUnknown`, for any key, budget, context and database.  The
acquire decoders silently treat unexpected responses as success:
`MySQLLock.AcquireLock` and `MySQLLocker.AcquireLock` return nil for every
scanned non-NULL value other than 0, and `PostgreSQLLock.AcquireLock`
returns nil on a NULL try-acquire result. -/
theorem C2_amended (lm : mysql.MySQLLock) (lk : mysql.MySQLLocker)
    (lp : postgres.PostgreSQLLock) (ctx : Ctx) (key : GoValue) (k : String)
    (i t u n : Int) (db : Db) (hn : n ≠ 0) (ht : 0 ≤ t) :
    (db.getLock k (goSeconds t) = .ok (some n) →
      (lm.AcquireLock ctx k t db).1 = none ∧
      (lk.AcquireLock ctx k t db).1 = none) ∧
    (db.tryAdvisoryLock i = .ok none →
      (lp.AcquireLock ctx (.int64 i) t db).1 = none) ∧
    (db.isFreeLockI k = .ok none →
      (lm.IsLockFree ctx k db).1 =
        (false, some (.myLock ⟨.lockUnknown,
          "unknown error (possibly an incorrect argument)",
          "IsLockFree", lm.name, "mysql"⟩)) ∧
      (lp.IsLockFree ctx k db).1 =
        (false, some (.pgLock ⟨.lockUnknown,
          "unknown error (possibly an incorrect argument)",
          "IsLockFree", lp.name, "postgres"⟩))) ∧
    (causeOf (lm.IsLockFree ctx k db).1.2 = some .lockUnknown ↔
      db.isFreeLockI k = .ok none) ∧
    (causeOf (lp.IsLockFree ctx k db).1.2 = some .lockUnknown ↔
      db.isFreeLockI k = .ok none) ∧
    causeOf (lp.AcquireLock ctx key u db).1 ≠ some .lockUnknown ∧
    causeOf (lm.AcquireLock ctx k u db).1 ≠ some .lockUnknown ∧
    causeOf (lk.AcquireLock ctx k u db).1 ≠ some .lockUnknown ∧
    causeOf (lp.ReleaseLock ctx k db).1 ≠ some .lockUnknown ∧
    causeOf (lm.ReleaseLock ctx k db).1 ≠ some .lockUnknown ∧
    causeOf (lk.ReleaseLock ctx k db).1 ≠ some .lockUnknown ∧
    causeOf (lp.IsLockAcquired ctx k db).1.2 ≠ some .lockUnknown ∧
    causeOf (lm.IsLockAcquired ctx k db).1.2 ≠ some .lockUnknown ∧
    causeOf (lk.IsLockAcquired ctx k db).1.2 ≠ some .lockUnknown ∧
    causeOf (lk.IsLockFree ctx k db).1.2 ≠ some .lockUnknown ∧
    causeOf (lp.ReleaseAllLocks ctx db).1.2 ≠ some .lockUnknown ∧
    causeOf (lm.ReleaseAllLocks ctx db).1.2 ≠ some .lockUnknown := by
  have htneg : ¬ t < 0 := by omega
  obtain ⟨d, r⟩ := ctx
  refine ⟨fun hget => ⟨?_, ?_⟩, fun htry => ?_, fun hfree => ⟨?_, ?_⟩,
    ?_, ?_, ?_, ?_, ?_, ?_, ?_, ?_, ?_, ?_, ?_, ?_, ?_, ?_⟩
  · unfold mysql.MySQLLock.AcquireLock
    simp only [hget]
  · unfold mysql.MySQLLocker.AcquireLock
    simp only [hget]
  · unfold postgres.PostgreSQLLock.AcquireLock
    simp only [htneg, if_false, htry]
  · unfold mysql.MySQLLock.IsLockFree
    simp only [hfree]
  · unfold postgres.PostgreSQLLock.IsLockFree
    simp only [hfree]
  · unfold mysql.MySQLLock.IsLockFree
    rcases hdb : db.isFreeLockI k with m | m | v
    · simp [hdb, causeOf]
    · simp [hdb, causeOf]
    · rcases v with _ | n2
      · simp [hdb, causeOf]
      · rcases eq_or_ne n2 0 with rfl | hn0
        · simp [hdb, causeOf]
        · rcases eq_or_ne n2 1 with rfl | hn1 <;> simp [hdb, causeOf]
  · unfold postgres.PostgreSQLLock.IsLockFree
    rcases hdb : db.isFreeLockI k with m | m | v
    · simp [hdb, causeOf]
    · simp [hdb, causeOf]
    · rcases v with _ | n2
      · simp [hdb, causeOf]
      · rcases eq_or_ne n2 0 with rfl | hn0
        · simp [hdb, causeOf]
        · rcases eq_or_ne n2 1 with rfl | hn1 <;> simp [hdb, causeOf]
  · cases key with
    | str s => simp [postgres.PostgreSQLLock.AcquireLock, causeOf]
    | int64 i2 =>
      unfold postgres.PostgreSQLLock.AcquireLock
      by_cases hu : u < 0 <;> simp only [hu, if_true, if_false]
      · rcases hdb : db.advisoryLock i2 with m | m | v
        · cases d <;> cases r <;> simp [hdb, causeOf, Ctx.errBase]
        · cases d <;> cases r <;> simp [hdb, causeOf, Ctx.errBase]
        · rcases v with _ | b
          · simp [hdb, causeOf]
          · cases b <;> simp [hdb, causeOf]
      · rcases hdb : db.tryAdvisoryLock i2 with m | m | v
        · cases d <;> cases r <;> simp [hdb, causeOf, Ctx.errBase]
        · cases d <;> cases r <;> simp [hdb, causeOf, Ctx.errBase]
        · rcases v with _ | b
          · simp [hdb, causeOf]
          · cases b <;> simp [hdb, causeOf]
  · unfold mysql.MySQLLock.AcquireLock
    rcases hdb : db.getLock k (goSeconds u) with m | m | v
    · cases d <;> cases r <;> simp [hdb, causeOf, Ctx.errBase]
    · cases d <;> cases r <;> simp [hdb, causeOf, Ctx.errBase]
    · rcases v with _ | n2
      · simp [hdb, causeOf]
      · rcases eq_or_ne n2 0 with rfl | hn0 <;> simp [hdb, causeOf]
  · unfold mysql.MySQLLocker.AcquireLock
    rcases hdb : db.getLock k (goSeconds u) with m | m | v
    · simp [hdb, causeOf]
    · simp [hdb, causeOf]
    · rcases v with _ | n2
      · simp [hdb, causeOf]
      · rcases eq_or_ne n2 0 with rfl | hn0 <;> simp [hdb, causeOf]
  · unfold postgres.PostgreSQLLock.ReleaseLock
    rcases hdb : db.releaseLock k with m | m | v
    · simp [hdb, causeOf]
    · simp [hdb, causeOf]
    · rcases v with _ | n2
      · simp [hdb, causeOf]
      · rcases eq_or_ne n2 0 with rfl | hn0 <;> simp [hdb, causeOf]
  · unfold mysql.MySQLLock.ReleaseLock
    rcases hdb : db.releaseLock k with m | m | v
    · simp [hdb, causeOf]
    · simp [hdb, causeOf]
    · rcases v with _ | n2
      · simp [hdb, causeOf]
      · rcases eq_or_ne n2 0 with rfl | hn0 <;> simp [hdb, causeOf]
  · unfold mysql.MySQLLocker.ReleaseLock
    rcases hdb : db.releaseLock k with m | m | v
    · simp [hdb, causeOf]
    · simp [hdb, causeOf]
    · rcases v with _ | n2
      · simp [hdb, causeOf]
      · rcases eq_or_ne n2 0 with rfl | hn0 <;> simp [hdb, causeOf]
  · unfold postgres.PostgreSQLLock.IsLockAcquired
    rcases hdb : db.isUsedLock k with m | m | v
    · simp [hdb, causeOf]
    · simp [hdb, causeOf]
    · rcases v with _ | s2 <;> simp [hdb, causeOf]
  · unfold mysql.MySQLLock.IsLockAcquired
    rcases hdb : db.isUsedLock k with m | m | v
    · simp [hdb, causeOf]
    · simp [hdb, causeOf]
    · rcases v with _ | s2 <;> simp [hdb, causeOf]
  · unfold mysql.MySQLLocker.IsLockAcquired
    rcases hdb : db.isUsedLock k with m | m | v
    · simp [hdb, causeOf]
    · simp [hdb, causeOf]
    · rcases v with _ | s2 <;> simp [hdb, causeOf]
  · unfold mysql.MySQLLocker.IsLockFree
    rcases hdb : db.isFreeLockS k with m | m | v
    · simp [hdb, causeOf]
    · simp [hdb, causeOf]
    · rcases v with _ | s2 <;> simp [hdb, causeOf]
  · unfold postgres.PostgreSQLLock.ReleaseAllLocks
    rcases hdb : db.releaseAll with m | m | v
    · simp [hdb, causeOf]
    · simp [hdb, causeOf]
    · rcases v with _ | n2 <;> simp [hdb, causeOf]
  · unfold mysql.MySQLLock.ReleaseAllLocks
    rcases hdb : db.releaseAll with m | m | v
    · simp [hdb, causeOf]
    · simp [hdb, causeOf]
    · rcases v with _ | n2 <;> simp [hdb, causeOf]

/-- C2, witness for the amended theorem at the malformed response 7 and a
NULL is-free probe. -/
theorem C2_amended_witness :
    dbGet7.getLock "k" (goSeconds 0) = .ok (some 7) ∧
    ((mysql.MySQLLock.AcquireLock ⟨"s1"⟩ ctxLive "k" 0 dbGet7).1 = none ∧
     (mysql.MySQLLocker.AcquireLock ⟨"s2"⟩ ctxLive "k" 0 dbGet7).1 = none) :=
  ⟨by decide,
    (C2_amended ⟨"s1"⟩ ⟨"s2"⟩ ⟨"s3"⟩ ctxLive (.int64 7) "k" 7 0 0 7 dbGet7
      (by decide) (by decide)).1 (by decide)⟩

/-- C3, amended.  For `MySQLLock.AcquireLock` and
`PostgreSQLLock.AcquireLock` (with an `int64` key), a transport failure at
the row or scan stage is answered, when the caller's context is already
done, by a structured `LockError` whose cause is the context's own error,
and, when the context is still live, by the raw transport error unchanged.
The older `MySQLLocker.AcquireLock` propagates the raw transport error
even when the context is already done (see the counterexample). -/
theorem C3_amended (lm : mysql.MySQLLock) (lp : postgres.PostgreSQLLock)
    (ctx : Ctx) (k : String) (i t : Int) (db : Db) (m : String)
    (hmy : db.getLock k (goSeconds t) = .rowErr m ∨
           db.getLock k (goSeconds t) = .scanErr m)
    (hpg : (if t < 0 then db.advisoryLock i else db.tryAdvisoryLock i) = .rowErr m ∨
           (if t < 0 then db.advisoryLock i else db.tryAdvisoryLock i) = .scanErr m) :
    (ctx.done = true →
      causeOf (lm.AcquireLock ctx k t db).1 = some ctx.errBase ∧
      isStructured (lm.AcquireLock ctx k t db).1 = true ∧
      causeOf (lp.AcquireLock ctx (.int64 i) t db).1 = some ctx.errBase ∧
      isStructured (lp.AcquireLock ctx (.int64 i) t db).1 = true) ∧
    (ctx.done = false →
      (lm.AcquireLock ctx k t db).1 = some (.base (.goError m)) ∧
      (lp.AcquireLock ctx (.int64 i) t db).1 = some (.base (.goError m))) := by
  unfold mysql.MySQLLock.AcquireLock postgres.PostgreSQLLock.AcquireLock
  constructor
  · intro hd
    rcases hmy with hmy | hmy <;> rcases hpg with hpg | hpg <;>
      simp [hmy, hpg, hd, causeOf, isStructured]
  · intro hd
    rcases hmy with hmy | hmy <;> rcases hpg with hpg | hpg <;>
      simp [hmy, hpg, hd]

/-- C3, witness for the amended theorem: a cancelled context and a
transport failure on the acquire query. -/
theorem C3_amended_witness :
    (dbRowErr.getLock "k" (goSeconds 0) = .rowErr "conn reset" ∨
     dbRowErr.getLock "k" (goSeconds 0) = .scanErr "conn reset") ∧
    (causeOf (mysql.MySQLLock.AcquireLock ⟨"s1"⟩ ctxDoneCanceled "k" 0 dbRowErr).1 =
       some ctxDoneCanceled.errBase ∧
     isStructured (mysql.MySQLLock.AcquireLock ⟨"s1"⟩ ctxDoneCanceled "k" 0 dbRowErr).1 = true ∧
     causeOf (postgres.PostgreSQLLock.AcquireLock ⟨"s2"⟩ ctxDoneCanceled
       (.int64 7) 0 dbRowErr).1 = some ctxDoneCanceled.errBase ∧
     isStructured (postgres.PostgreSQLLock.AcquireLock ⟨"s2"⟩ ctxDoneCanceled
       (.int64 7) 0 dbRowErr).1 = true) :=
  ⟨Or.inl (by decide),
    (C3_amended ⟨"s1"⟩ ⟨"s2"⟩ ctxDoneCanceled "k" 7 0 dbRowErr "conn reset"
      (Or.inl (by decide)) (Or.inl (by decide))).1 (by decide)⟩

/-- C7, amended.  For Backend A, the `MySQLLock` implementation of
`IsLockFree` maps the native probe as the claim states: NULL yields a
`LockError` wrapping `ErrorLockUnknown`, 0 yields `(false, nil)` and 1
yields `(true, nil)`.  The older `MySQLLocker` implementation instead
scans the probe as a nullable string and returns `(false, nil)` on NULL
and `(true, nil)` on every non-NULL value, including the server's 0. -/
theorem C7_amended (l : mysql.MySQLLock) (lk : mysql.MySQLLocker) (ctx : Ctx)
    (k s : String) (db : Db) :
    (db.isFreeLockI k = .ok none →
      (l.IsLockFree ctx k db).1 =
        (false, some (.myLock ⟨.lockUnknown,
          "unknown error (possibly an incorrect argument)",
          "IsLockFree", l.name, "mysql"⟩))) ∧
    (db.isFreeLockI k = .ok (some 0) → (l.IsLockFree ctx k db).1 = (false, none)) ∧
    (db.isFreeLockI k = .ok (some 1) → (l.IsLockFree ctx k db).1 = (true, none)) ∧
    (db.isFreeLockS k = .ok none → (lk.IsLockFree ctx k db).1 = (false, none)) ∧
    (db.isFreeLockS k = .ok (some s) → (lk.IsLockFree ctx k db).1 = (true, none)) := by
  refine ⟨fun h => ?_, fun h => ?_, fun h => ?_, fun h => ?_, fun h => ?_⟩ <;>
    first
    | (unfold mysql.MySQLLock.IsLockFree; simp only [h])
    | (unfold mysql.MySQLLocker.IsLockFree; simp only [h])

/-- C7, witness for the amended theorem: the probe answering 0 (in use). -/
theorem C7_amended_witness :
    dbFree0.isFreeLockI "k" = .ok (some 0) ∧
    (mysql.MySQLLock.IsLockFree ⟨"s1"⟩ ctxLive "k" dbFree0).1 = (false, none) :=
  ⟨by decide,
    (C7_amended ⟨"s1"⟩ ⟨"s2"⟩ ctxLive "k" "0" dbFree0).2.1 (by decide)⟩

/-- C8.  For Backend A, both `MySQLLock.AcquireLock` and
`MySQLLocker.AcquireLock` issue `GET_LOCK` with the wait budget converted
to whole seconds by `Int.tdiv _ 1000000000` — the truncation toward zero
of the duration's nanosecond count — and map the tri-state answer: NULL to
a `LockError` wrapping `ErrorLockAcquisitionFailed`, 0 to one wrapping
`ErrorLockTimeout`, and 1 to success (nil error), for every key, wait
budget, context and database. -/
theorem C8_mapping (l : mysql.MySQLLock) (lk : mysql.MySQLLocker) (ctx : Ctx)
    (k : String) (t : Int) (db : Db) :
    (l.AcquireLock ctx k t db).2 = [Query.getLock k (Int.tdiv t 1000000000)] ∧
    (lk.AcquireLock ctx k t db).2 = [Query.getLock k (Int.tdiv t 1000000000)] ∧
    (db.getLock k (goSeconds t) = .ok none →
      (l.AcquireLock ctx k t db).1 =
        some (.myLock ⟨.lockAcquisitionFailed, "failed to acquire lock",
          "AcquireLock", l.name, "mysql"⟩) ∧
      (lk.AcquireLock ctx k t db).1 =
        some (.myLock ⟨.lockAcquisitionFailed, "failed to acquire lock",
          "AcquireLock", lk.name, "mysql"⟩)) ∧
    (db.getLock k (goSeconds t) = .ok (some 0) →
      (l.AcquireLock ctx k t db).1 =
        some (.myLock ⟨.lockTimeout, "timeout", "AcquireLock", l.name, "mysql"⟩) ∧
      (lk.AcquireLock ctx k t db).1 =
        some (.myLock ⟨.lockTimeout, "timeout", "AcquireLock", lk.name, "mysql"⟩)) ∧
    (db.getLock k (goSeconds t) = .ok (some 1) →
      (l.AcquireLock ctx k t db).1 = none ∧
      (lk.AcquireLock ctx k t db).1 = none) := by
  unfold mysql.MySQLLock.AcquireLock mysql.MySQLLocker.AcquireLock
  refine ⟨?_, ?_, fun h => ?_, fun h => ?_, fun h => ?_⟩
  · rcases hdb : db.getLock k (goSeconds t) with m | m | v <;>
      (simp only [goSeconds] at hdb; simp [goSeconds, hdb])
  · rcases hdb : db.getLock k (goSeconds t) with m | m | v <;>
      (simp only [goSeconds] at hdb; simp [goSeconds, hdb])
  · simp [h]
  · simp [h]
  · simp [h]

/-- C8, witness: a 1.5-second wait budget (truncated to 1 whole second)
against a database on which `GET_LOCK` answers 0. -/
theorem C8_mapping_witness :
    dbGet0.getLock "k" (goSeconds 1500000000) = .ok (some 0) ∧
    ((mysql.MySQLLock.AcquireLock ⟨"s1"⟩ ctxLive "k" 1500000000 dbGet0).1 =
      some (.myLock ⟨.lockTimeout, "timeout", "AcquireLock", "s1", "mysql"⟩) ∧
    (mysql.MySQLLocker.AcquireLock ⟨"s2"⟩ ctxLive "k" 1500000000 dbGet0).1 =
      some (.myLock ⟨.lockTimeout, "timeout", "AcquireLock", "s2", "mysql"⟩)) :=
  ⟨by decide,
    (C8_mapping ⟨"s1"⟩ ⟨"s2"⟩ ctxLive "k" 1500000000 dbGet0).2.2.2.1 (by decide)⟩

/-- Property of an operation result: if it is a structured domain error (a
`LockError` of either package), then it carries the given backend
identifier, operation name and session name, a nonempty human message, and
a cause reachable by unwrapping (`errors.Is` on the error finds its own
cause).  Results that are success or raw propagated errors are not domain
errors and are unconstrained. -/
def domainErrOk (driver method session : String) : Option GoErr → Prop
  | some (.pgLock e) =>
      e.driver = driver ∧ e.sessionName = session ∧ e.method = method ∧
      e.message ≠ "" ∧ GoErr.is (.pgLock e) e.err = true
  | some (.myLock e) =>
      e.driver = driver ∧ e.sessionName = session ∧ e.method = method ∧
      e.message ≠ "" ∧ GoErr.is (.myLock e) e.err = true
  | _ => True

/-- C9.  Every structured domain error produced by any embedded operation
of any backend — the five postgres operations, the five mysql `MySQLLock`
operations, and the four `MySQLLocker` operations — carries the backend
identifier, the operation name, the session name, a nonempty message, and
its cause reachable by unwrapping, for every key, wait budget, context and
database response.  (Operations that construct no `LockError` satisfy the
property vacuously on every path, which the proof also establishes by
exhausting their result shapes.) -/
theorem C9_structured (lm : mysql.MySQLLock) (lk : mysql.MySQLLocker)
    (lp : postgres.PostgreSQLLock)
    (ctx : Ctx) (key : GoValue) (k : String) (t : Int) (db : Db) :
    domainErrOk "postgres" "AcquireLock" lp.name (lp.AcquireLock ctx key t db).1 ∧
    domainErrOk "postgres" "ReleaseLock" lp.name (lp.ReleaseLock ctx k db).1 ∧
    domainErrOk "postgres" "IsLockFree" lp.name (lp.IsLockFree ctx k db).1.2 ∧
    domainErrOk "mysql" "AcquireLock" lm.name (lm.AcquireLock ctx k t db).1 ∧
    domainErrOk "mysql" "ReleaseLock" lm.name (lm.ReleaseLock ctx k db).1 ∧
    domainErrOk "mysql" "IsLockFree" lm.name (lm.IsLockFree ctx k db).1.2 ∧
    domainErrOk "postgres" "IsLockAcquired" lp.name (lp.IsLockAcquired ctx k db).1.2 ∧
    domainErrOk "postgres" "ReleaseAllLocks" lp.name (lp.ReleaseAllLocks ctx db).1.2 ∧
    domainErrOk "mysql" "IsLockAcquired" lm.name (lm.IsLockAcquired ctx k db).1.2 ∧
    domainErrOk "mysql" "ReleaseAllLocks" lm.name (lm.ReleaseAllLocks ctx db).1.2 ∧
    domainErrOk "mysql" "AcquireLock" lk.name (lk.AcquireLock ctx k t db).1 ∧
    domainErrOk "mysql" "ReleaseLock" lk.name (lk.ReleaseLock ctx k db).1 ∧
    domainErrOk "mysql" "IsLockAcquired" lk.name (lk.IsLockAcquired ctx k db).1.2 ∧
    domainErrOk "mysql" "IsLockFree" lk.name (lk.IsLockFree ctx k db).1.2 := by
  unfold postgres.PostgreSQLLock.AcquireLock postgres.PostgreSQLLock.ReleaseLock
    postgres.PostgreSQLLock.IsLockFree postgres.PostgreSQLLock.IsLockAcquired
    postgres.PostgreSQLLock.ReleaseAllLocks mysql.MySQLLock.AcquireLock
    mysql.MySQLLock.ReleaseLock mysql.MySQLLock.IsLockFree
    mysql.MySQLLock.IsLockAcquired mysql.MySQLLock.ReleaseAllLocks
    mysql.MySQLLocker.AcquireLock mysql.MySQLLocker.ReleaseLock
    mysql.MySQLLocker.IsLockAcquired mysql.MySQLLocker.IsLockFree
  refine ⟨?_, ?_, ?_, ?_, ?_, ?_, ?_, ?_, ?_, ?_, ?_, ?_, ?_, ?_⟩
  · cases key with
    | str s => simp [domainErrOk, GoErr.is, postgres.LockError.Unwrap]
    | int64 i =>
      by_cases ht : t < 0 <;> simp only [ht, if_true, if_false]
      · rcases hdb : db.advisoryLock i with m | m | v
        · cases hc : ctx.done <;>
            simp [hdb, hc, domainErrOk, GoErr.is, postgres.LockError.Unwrap]
        · cases hc : ctx.done <;>
            simp [hdb, hc, domainErrOk, GoErr.is, postgres.LockError.Unwrap]
        · rcases v with _ | b
          · simp [hdb, domainErrOk]
          · cases b <;> simp [hdb, domainErrOk, GoErr.is, postgres.LockError.Unwrap]
      · rcases hdb : db.tryAdvisoryLock i with m | m | v
        · cases hc : ctx.done <;>
            simp [hdb, hc, domainErrOk, GoErr.is, postgres.LockError.Unwrap]
        · cases hc : ctx.done <;>
            simp [hdb, hc, domainErrOk, GoErr.is, postgres.LockError.Unwrap]
        · rcases v with _ | b
          · simp [hdb, domainErrOk]
          · cases b <;> simp [hdb, domainErrOk, GoErr.is, postgres.LockError.Unwrap]
  · rcases hdb : db.releaseLock k with m | m | v
    · simp [hdb, domainErrOk]
    · simp [hdb, domainErrOk]
    · rcases v with _ | n
      · simp [hdb, domainErrOk, GoErr.is, postgres.LockError.Unwrap]
      · rcases eq_or_ne n 0 with rfl | hn <;>
          simp [hdb, domainErrOk, GoErr.is, postgres.LockError.Unwrap]
  · rcases hdb : db.isFreeLockI k with m | m | v
    · simp [hdb, domainErrOk]
    · simp [hdb, domainErrOk]
    · rcases v with _ | n
      · simp [hdb, domainErrOk, GoErr.is, postgres.LockError.Unwrap]
      · rcases eq_or_ne n 0 with rfl | hn
        · simp [hdb, domainErrOk]
        · rcases eq_or_ne n 1 with rfl | hn1 <;> simp [hdb, domainErrOk]
  · rcases hdb : db.getLock k (goSeconds t) with m | m | v
    · cases hc : ctx.done <;>
        simp [hdb, hc, domainErrOk, GoErr.is, mysql.LockError.Unwrap]
    · cases hc : ctx.done <;>
        simp [hdb, hc, domainErrOk, GoErr.is, mysql.LockError.Unwrap]
    · rcases v with _ | n
      · simp [hdb, domainErrOk, GoErr.is, mysql.LockError.Unwrap]
      · rcases eq_or_ne n 0 with rfl | hn <;>
          simp [hdb, domainErrOk, GoErr.is, mysql.LockError.Unwrap]
  · rcases hdb : db.releaseLock k with m | m | v
    · simp [hdb, domainErrOk]
    · simp [hdb, domainErrOk]
    · rcases v with _ | n
      · simp [hdb, domainErrOk, GoErr.is, mysql.LockError.Unwrap]
      · rcases eq_or_ne n 0 with rfl | hn <;>
          simp [hdb, domainErrOk, GoErr.is, mysql.LockError.Unwrap]
  · rcases hdb : db.isFreeLockI k with m | m | v
    · simp [hdb, domainErrOk]
    · simp [hdb, domainErrOk]
    · rcases v with _ | n
      · simp [hdb, domainErrOk, GoErr.is, mysql.LockError.Unwrap]
      · rcases eq_or_ne n 0 with rfl | hn
        · simp [hdb, domainErrOk]
        · rcases eq_or_ne n 1 with rfl | hn1 <;> simp [hdb, domainErrOk]
  · rcases hdb : db.isUsedLock k with m | m | v
    · simp [hdb, domainErrOk]
    · simp [hdb, domainErrOk]
    · rcases v with _ | s2 <;> simp [hdb, domainErrOk]
  · rcases hdb : db.releaseAll with m | m | v
    · simp [hdb, domainErrOk]
    · simp [hdb, domainErrOk]
    · rcases v with _ | n2 <;> simp [hdb, domainErrOk]
  · rcases hdb : db.isUsedLock k with m | m | v
    · simp [hdb, domainErrOk]
    · simp [hdb, domainErrOk]
    · rcases v with _ | s2 <;> simp [hdb, domainErrOk]
  · rcases hdb : db.releaseAll with m | m | v
    · simp [hdb, domainErrOk]
    · simp [hdb, domainErrOk]
    · rcases v with _ | n2 <;> simp [hdb, domainErrOk]
  · rcases hdb : db.getLock k (goSeconds t) with m | m | v
    · simp [hdb, domainErrOk]
    · simp [hdb, domainErrOk]
    · rcases v with _ | n2
      · simp [hdb, domainErrOk, GoErr.is, mysql.LockError.Unwrap]
      · rcases eq_or_ne n2 0 with rfl | hn <;>
          simp [hdb, domainErrOk, GoErr.is, mysql.LockError.Unwrap]
  · rcases hdb : db.releaseLock k with m | m | v
    · simp [hdb, domainErrOk]
    · simp [hdb, domainErrOk]
    · rcases v with _ | n2
      · simp [hdb, domainErrOk, GoErr.is, mysql.LockError.Unwrap]
      · rcases eq_or_ne n2 0 with rfl | hn <;>
          simp [hdb, domainErrOk, GoErr.is, mysql.LockError.Unwrap]
  · rcases hdb : db.isUsedLock k with m | m | v
    · simp [hdb, domainErrOk]
    · simp [hdb, domainErrOk]
    · rcases v with _ | s2 <;> simp [hdb, domainErrOk]
  · rcases hdb : db.isFreeLockS k with m | m | v
    · simp [hdb, domainErrOk]
    · simp [hdb, domainErrOk]
    · rcases v with _ | s2 <;> simp [hdb, domainErrOk]

/-- C9, witness: the structured `DoesNotExist` error produced by the
postgres release of a never-acquired key carries the full diagnostics. -/
theorem C9_structured_witness :
    domainErrOk "postgres" "ReleaseLock" "s1"
      (postgres.PostgreSQLLock.ReleaseLock ⟨"s1"⟩ ctxLive "k" dbNull).1 :=
  (C9_structured ⟨"s2"⟩ ⟨"s3"⟩ ⟨"s1"⟩ ctxLive (.str "x") "k" 0 dbNull).2.1

/-- C10, witness: the concrete call with the string key "k". -/
theorem C10_invalid_key_witness :
    postgres.PostgreSQLLock.AcquireLock ⟨"s1"⟩ ctxLive (.str "k") 5 dbNull =
      (some (.pgLock ⟨.goError "key must be a 64-bit integer",
        "key must be a 64-bit integer", "AcquireLock", "s1", "postgres"⟩),
       []) :=
  C10_invalid_key ⟨"s1"⟩ ctxLive "k" 5 dbNull

end Yalock
